import Mathlib

/-!
Shallow embedding of the DataBase_Stress load-generation harness.

The repository contains two implementations of the batch orchestrator:

* the per-database run functions in src/src/load_test/mongo.js,
  src/src/load_test/postgress.js and the mysql variant appended to
  postgress.js — all three share the same outcome logic (embedded below
  as namespace LoadTest); they differ in when the connection handle is
  assigned, which affects only the finally-block cleanup close: mongo
  and postgres construct the client synchronously before connect
  (attemptEffects), while mysql assigns the handle only once the
  timeout-wrapped createConnection has resolved (attemptEffectsMysql);
* the combined harness testDatabase in src/unnamed/part_000 (embedded
  below as namespace Harness).

Wall-clock timestamps and process-memory samples are environment reads
with no influence on the claims; they are represented only as effects
(memSample) where the claims mention them, not as summary fields.
-/

namespace DBStress

/-- A JavaScript error value as the catch blocks observe it: an optional
code property (absent on many errors, e.g. on the promise-timeout
TimeoutError) and a message string.  The source computes the recorded
key as error.code || error.message. -/
structure JsError where
  code : Option String
  message : String
deriving DecidableEq

/-- The key recorded for an error: the JavaScript expression
error.code || error.message.  The || operator tests truthiness, so an
absent code or a present-but-empty-string code both fall through to the
message. -/
def errKeyOf (e : JsError) : String :=
  match e.code with
  | some c => if c = "" then e.message else c
  | none => e.message

/-- The rejection value of the third-party promise-timeout library
(require('promise-timeout')): its TimeoutError carries no code property
and the fixed message "Timeout".  This is dependency behaviour, not
repository code; only the absence of a code and the fact that the
message is not "Connection Timeout" matter below. -/
def timeoutError : JsError := ⟨none, "Timeout"⟩

/-- Result of one adapter step (connect, round-trip query, or close):
either it resolves, or it rejects with a JavaScript error. -/
inductive StepResult where
  | ok : StepResult
  | err : JsError → StepResult
deriving DecidableEq

/-- The outcome one attempt contributes to the accumulating results
object: the success path pushes a latency and increments successful;
the catch path increments failed and records an error key. -/
inductive Outcome where
  | success : ℚ → Outcome
  | failure : String → Outcome
deriving DecidableEq

/-- Observable side effects of one attempt, used to express which
adapter operations are invoked on which paths. -/
inductive Effect where
  | connect : Effect
  | query : Effect
  | closeCall : Effect
  | cleanupCloseCall : Effect
  | memSample : Effect
deriving DecidableEq

/-- Deduplicating append from the source:
if (!results.errors.includes(errorMsg)) results.errors.push(errorMsg). -/
def addError (l : List String) (k : String) : List String :=
  if k ∈ l then l else l ++ [k]

namespace LoadTest

/-- Environment behaviour of one attempt of the run functions.  The
attempt races client.connect() against the promise-timeout timer;
connectTimesOut records which side of that race wins (real time is not
modelled, so the race result is an input).  The remaining fields give
the results of the adapter steps when they are reached: connect is the
connect call when it wins the race, query the round-trip, close the
close/end awaited inside the try block, cleanupClose the close/end in
the finally block, and latencyMs the duration measured on the success
path. -/
structure AttemptBehavior where
  connectTimesOut : Bool
  connect : StepResult
  query : StepResult
  close : StepResult
  cleanupClose : StepResult
  latencyMs : ℚ
deriving DecidableEq

/-- One attempt of run (mongo.js lines 27-60, postgress.js lines 30-58):
the try block awaits timeout(connect), query, close and then counts a
success; any rejection reaches the single catch block, which counts a
failure with key error.code || error.message.  The finally close has
.catch(() => \x7b\x7d), so cleanupClose never influences the outcome. -/
def runAttempt (b : AttemptBehavior) : Outcome :=
  if b.connectTimesOut then Outcome.failure (errKeyOf timeoutError)
  else match b.connect with
  | StepResult.err e => Outcome.failure (errKeyOf e)
  | StepResult.ok =>
    match b.query with
    | StepResult.err e => Outcome.failure (errKeyOf e)
    | StepResult.ok =>
      match b.close with
      | StepResult.err e => Outcome.failure (errKeyOf e)
      | StepResult.ok => Outcome.success b.latencyMs

/-- Adapter operations one attempt of the mongo.js / postgress.js run
functions performs, in order.  The client is constructed and connect
invoked unconditionally at the top of the try block; query runs only
after connect resolved in time; the in-try close only after query
resolved.  The finally block always runs and in these two variants the
client handle exists on every modelled path (the constructor precedes
connect), so the if (client) guard holds and the cleanup close is
always attempted, followed by the memory sample.  The mysql variant
assigns its handle later and is modelled by attemptEffectsMysql. -/
def attemptEffects (b : AttemptBehavior) : List Effect :=
  Effect.connect ::
    (if b.connectTimesOut then []
     else match b.connect with
     | StepResult.err _ => []
     | StepResult.ok =>
       Effect.query ::
         (match b.query with
          | StepResult.err _ => []
          | StepResult.ok => [Effect.closeCall]))
    ++ [Effect.cleanupCloseCall, Effect.memSample]

/-- The results object of run, restricted to the fields the claims
concern.  avgResponseTime is the Math.round of the mean of
responseTimes, or the literal 0 when responseTimes is empty. -/
structure RunSummary where
  totalConnections : ℤ
  successful : ℕ
  failed : ℕ
  errors : List String
  responseTimes : List ℚ
  avgResponseTime : ℤ
deriving DecidableEq

/-- Folding one settled outcome into the results object: the success
path pushes the duration and increments successful; the catch path
increments failed and deduplicates the error key into errors. -/
def applyOutcome (acc : RunSummary) (o : Outcome) : RunSummary :=
  match o with
  | Outcome.success d =>
    { acc with
      responseTimes := acc.responseTimes ++ [d]
      successful := acc.successful + 1 }
  | Outcome.failure k =>
    { acc with
      failed := acc.failed + 1
      errors := addError acc.errors k }

/-- The results object as initialised at the top of run. -/
def initSummary (totalConnections : ℤ) : RunSummary :=
  ⟨totalConnections, 0, 0, [], [], 0⟩

/-- Outcomes of the totalConnections attempts.  The loop
for (let i = 0; i < totalConnections; i++) launches toNat-many attempts
(zero when totalConnections is not positive).  beh lists the attempts'
behaviours in the order their outcomes are applied to the shared
results object; since beh is arbitrary, every completion order of a
real execution is represented by some beh. -/
def outcomes (totalConnections : ℤ) (beh : ℕ → AttemptBehavior) : List Outcome :=
  (List.range totalConnections.toNat).map (fun i => runAttempt (beh i))

/-- avgResponseTime as computed after the join:
responseTimes.length > 0 ? Math.round(sum / length) : 0.
Math.round rounds half toward positive infinity, which is Mathlib's
round on ℚ. -/
def avgOf (rt : List ℚ) : ℤ :=
  if 0 < rt.length then round (rt.sum / (rt.length : ℚ)) else 0

/-- The run function of mongo.js / postgress.js (and the mysql variant):
launches totalConnections attempts, waits for all of them
(Promise.allSettled), then fills in the average.  The function body has
no validation and no throw path, so the embedding is total: it always
produces a RunSummary, for every totalConnections and timeoutMs.
timeoutMs is threaded only into the per-attempt race, whose result each
behaviour's connectTimesOut field records. -/
def run (totalConnections : ℤ) (timeoutMs : ℤ) (beh : ℕ → AttemptBehavior) :
    RunSummary :=
  let folded :=
    (outcomes totalConnections beh).foldl applyOutcome (initSummary totalConnections)
  { folded with avgResponseTime := avgOf folded.responseTimes }

/-- Adapter operations performed across the whole batch. -/
def runEffects (totalConnections : ℤ) (beh : ℕ → AttemptBehavior) : List Effect :=
  ((List.range totalConnections.toNat).map (fun i => attemptEffects (beh i))).flatten

/-- The latencies of the success outcomes of a list, in order: exactly
the values the success paths push onto responseTimes. -/
def successLatencies (outs : List Outcome) : List ℚ :=
  outs.filterMap (fun o =>
    match o with
    | Outcome.success d => some d
    | Outcome.failure _ => none)

/-- Whether one attempt of the mysql run variant ever assigns its
connection handle: there the assignment is
connection = await promiseTimeout.timeout(mysql.createConnection(...)),
so the handle exists exactly when that awaited call resolved — not when
it timed out and not when createConnection rejected. -/
def mysqlHandleCreated (b : AttemptBehavior) : Bool :=
  if b.connectTimesOut then false
  else match b.connect with
  | StepResult.ok => true
  | StepResult.err _ => false

/-- Adapter operations one attempt of the mysql run variant performs,
in order.  createConnection is invoked unconditionally inside the
timeout wrapper; query and the in-try end follow as in the other
variants.  In the finally block the if (connection) guard skips the
cleanup end whenever the handle was never assigned (connect failure or
timeout); the memory sample always runs. -/
def attemptEffectsMysql (b : AttemptBehavior) : List Effect :=
  Effect.connect ::
    (if b.connectTimesOut then []
     else match b.connect with
     | StepResult.err _ => []
     | StepResult.ok =>
       Effect.query ::
         (match b.query with
          | StepResult.err _ => []
          | StepResult.ok => [Effect.closeCall]))
    ++ (if mysqlHandleCreated b then [Effect.cleanupCloseCall] else [])
    ++ [Effect.memSample]

end LoadTest

namespace Harness

/-- Environment behaviour of one attempt of testDatabase
(src/unnamed/part_000).  There the timeout wraps the whole inner async
attempt, not just the connect: beatsDeadline records whether the inner
attempt settles before CONNECTION_TIMEOUT_MS elapses, and
settlesEventually whether an attempt that lost the race still settles
later (as opposed to hanging forever).  connect, query and close are
the adapter steps of the inner attempt (part_000 has no close in its
finally block) and latencyMs the duration measured on the success
path. -/
structure HBehavior where
  beatsDeadline : Bool
  settlesEventually : Bool
  connect : StepResult
  query : StepResult
  close : StepResult
  latencyMs : ℚ
deriving DecidableEq

/-- The outcome the inner async attempt of testDatabase (part_000 lines
69-117) applies to the shared results object when it settles: its
try/catch mirrors the run functions, except that no timeout races the
individual steps. -/
def innerOutcome (b : HBehavior) : Outcome :=
  match b.connect with
  | StepResult.err e => Outcome.failure (errKeyOf e)
  | StepResult.ok =>
    match b.query with
    | StepResult.err e => Outcome.failure (errKeyOf e)
    | StepResult.ok =>
      match b.close with
      | StepResult.err e => Outcome.failure (errKeyOf e)
      | StepResult.ok => Outcome.success b.latencyMs

/-- Every outcome one attempt of testDatabase applies to the shared
results object over the whole process lifetime.  If the inner attempt
beats the deadline it is counted once by its own try/catch.  If the
deadline elapses first, the outer catch (part_000 lines 120-127) counts
a failure with the fixed key "Connection Timeout" — and the inner
attempt is not cancelled: when it settles later, its try/catch still
runs and counts the same attempt a second time. -/
def contributions (b : HBehavior) : List Outcome :=
  if b.beatsDeadline then [innerOutcome b]
  else
    Outcome.failure "Connection Timeout" ::
      (if b.settlesEventually then [innerOutcome b] else [])

/-- The results object of testDatabase, restricted to the fields the
claims concern. -/
structure HSummary where
  successful : ℕ
  failed : ℕ
  errors : List String
  responseTimes : List ℚ
deriving DecidableEq

/-- Folding one outcome into testDatabase's results object; the
success, failure and timeout handlers mutate the counters and the
deduplicated errors list exactly as in the run functions. -/
def applyOutcomeH (acc : HSummary) (o : Outcome) : HSummary :=
  match o with
  | Outcome.success d =>
    { acc with
      responseTimes := acc.responseTimes ++ [d]
      successful := acc.successful + 1 }
  | Outcome.failure k =>
    { acc with
      failed := acc.failed + 1
      errors := addError acc.errors k }

/-- The at-rest results object of testDatabase: every outcome of every
attempt folded into the shared results object, including the second
outcomes that timed-out attempts apply after Promise.allSettled has
already resolved (the results object keeps being mutated by the
abandoned inner attempts).  bs lists the launched attempts' behaviours
in completion order; the source fixes the number of launched attempts
to the constant TOTAL_CONNECTIONS = 500, modelled here by the length
of bs. -/
def testDatabase (bs : List HBehavior) : HSummary :=
  ((bs.map contributions).flatten).foldl applyOutcomeH ⟨0, 0, [], []⟩

end Harness

namespace LoadTest

/-- Projection: the record update finalising avgResponseTime leaves the
successful counter of the folded results object unchanged. -/
theorem run_successful (n t : ℤ) (beh : ℕ → AttemptBehavior) :
    (run n t beh).successful =
      ((outcomes n beh).foldl applyOutcome (initSummary n)).successful := rfl

/-- Projection: the failed counter of run is that of the fold. -/
theorem run_failed (n t : ℤ) (beh : ℕ → AttemptBehavior) :
    (run n t beh).failed =
      ((outcomes n beh).foldl applyOutcome (initSummary n)).failed := rfl

/-- Projection: the errors list of run is that of the fold. -/
theorem run_errors (n t : ℤ) (beh : ℕ → AttemptBehavior) :
    (run n t beh).errors =
      ((outcomes n beh).foldl applyOutcome (initSummary n)).errors := rfl

/-- Projection: the responseTimes list of run is that of the fold. -/
theorem run_responseTimes (n t : ℤ) (beh : ℕ → AttemptBehavior) :
    (run n t beh).responseTimes =
      ((outcomes n beh).foldl applyOutcome (initSummary n)).responseTimes := rfl

/-- The reported average is computed from the recorded responseTimes. -/
theorem run_avg (n t : ℤ) (beh : ℕ → AttemptBehavior) :
    (run n t beh).avgResponseTime = avgOf ((run n t beh).responseTimes) := rfl

/-- Each settled outcome increments exactly one of the two counters. -/
theorem applyOutcome_counts (acc : RunSummary) (o : Outcome) :
    (applyOutcome acc o).successful + (applyOutcome acc o).failed =
      acc.successful + acc.failed + 1 := by
  cases o <;> simp [applyOutcome] <;> omega

/-- Folding a list of outcomes adds its length to the counter sum. -/
theorem foldl_counts (outs : List Outcome) (acc : RunSummary) :
    (outs.foldl applyOutcome acc).successful + (outs.foldl applyOutcome acc).failed =
      acc.successful + acc.failed + outs.length := by
  induction outs generalizing acc with
  | nil => simp
  | cons o rest ih =>
    have h := applyOutcome_counts acc o
    simp only [List.foldl_cons, List.length_cons]
    rw [ih]
    omega

/-- The batch launches toNat-many attempts, so the outcome list has
that length. -/
theorem outcomes_length (n : ℤ) (beh : ℕ → AttemptBehavior) :
    (outcomes n beh).length = n.toNat := by
  simp [outcomes]

/-- Counter sum invariant of the run functions: every attempt is
counted exactly once, by the success path or by the catch block. -/
theorem run_counts (n t : ℤ) (beh : ℕ → AttemptBehavior) :
    (run n t beh).successful + (run n t beh).failed = n.toNat := by
  rw [run_successful, run_failed, foldl_counts, outcomes_length]
  simp [initSummary]

/-- The deduplicating append preserves the no-duplicates invariant. -/
theorem addError_nodup (l : List String) (k : String) (h : l.Nodup) :
    (DBStress.addError l k).Nodup := by
  by_cases hk : k ∈ l
  · simpa [DBStress.addError, hk] using h
  · simp [DBStress.addError, hk, List.nodup_append, h]

/-- Folding outcomes preserves the no-duplicates invariant of errors. -/
theorem foldl_errors_nodup (outs : List Outcome) (acc : RunSummary)
    (h : acc.errors.Nodup) :
    ((outs.foldl applyOutcome acc).errors).Nodup := by
  induction outs generalizing acc with
  | nil => simpa using h
  | cons o rest ih =>
    refine ih _ ?_
    cases o with
    | success d => simpa [applyOutcome] using h
    | failure k => simpa [applyOutcome] using addError_nodup acc.errors k h

/-- The responseTimes accumulated by a fold are the success outcomes'
latencies, appended in order. -/
theorem foldl_responseTimes (outs : List Outcome) (acc : RunSummary) :
    (outs.foldl applyOutcome acc).responseTimes =
      acc.responseTimes ++ successLatencies outs := by
  induction outs generalizing acc with
  | nil => simp [successLatencies]
  | cons o rest ih =>
    cases o with
    | success d => simp [applyOutcome, successLatencies, ih, List.filterMap_cons]
    | failure k => simp [applyOutcome, successLatencies, ih, List.filterMap_cons]

/-- The successful counter accumulated by a fold counts exactly the
success outcomes. -/
theorem foldl_successful (outs : List Outcome) (acc : RunSummary) :
    (outs.foldl applyOutcome acc).successful =
      acc.successful + (successLatencies outs).length := by
  induction outs generalizing acc with
  | nil => simp [successLatencies]
  | cons o rest ih =>
    cases o with
    | success d =>
      simp [applyOutcome, successLatencies, ih, List.filterMap_cons]
      omega
    | failure k => simp [applyOutcome, successLatencies, ih, List.filterMap_cons]

end LoadTest

/-- C4: with totalAttempts = 0 the attempt loop never runs, so run
yields immediately a summary with zero counts, an empty distinct-error
list, an empty latency list, average 0 computed without error, and no
adapter operation is performed. -/
theorem c4_zero_attempts_empty_summary (t : ℤ) (beh : ℕ → LoadTest.AttemptBehavior) :
    (LoadTest.run 0 t beh).successful = 0 ∧
    (LoadTest.run 0 t beh).failed = 0 ∧
    (LoadTest.run 0 t beh).errors = [] ∧
    (LoadTest.run 0 t beh).responseTimes = [] ∧
    (LoadTest.run 0 t beh).avgResponseTime = 0 ∧
    LoadTest.runEffects 0 beh = [] :=
  ⟨rfl, rfl, rfl, rfl, rfl, rfl⟩

/-- C10: a negative totalConnections makes the loop guard
i < totalConnections false at once, so run behaves exactly as for zero
attempts: zero counts, empty error and latency lists, average 0, no
adapter operation, and no configuration error is raised (run has no
validation or throw path at all). -/
theorem c10_negative_total_like_zero (z t : ℤ) (beh : ℕ → LoadTest.AttemptBehavior)
    (hz : z < 0) :
    (LoadTest.run z t beh).successful = 0 ∧
    (LoadTest.run z t beh).failed = 0 ∧
    (LoadTest.run z t beh).errors = [] ∧
    (LoadTest.run z t beh).responseTimes = [] ∧
    (LoadTest.run z t beh).avgResponseTime = 0 ∧
    LoadTest.runEffects z beh = [] := by
  have hzn : z.toNat = 0 := Int.toNat_of_nonpos hz.le
  refine ⟨?_, ?_, ?_, ?_, ?_, ?_⟩ <;>
    simp [LoadTest.run, LoadTest.outcomes, LoadTest.runEffects, hzn,
      LoadTest.initSummary, LoadTest.avgOf]

/-- Witness for C10 at the concrete input totalConnections = -5. -/
theorem c10_negative_total_like_zero_witness :
    ((-5 : ℤ) < 0) ∧
    (LoadTest.run (-5) 1000
        (fun _ => ⟨false, StepResult.ok, StepResult.ok, StepResult.ok,
          StepResult.ok, 50⟩)).successful = 0 ∧
    (LoadTest.run (-5) 1000
        (fun _ => ⟨false, StepResult.ok, StepResult.ok, StepResult.ok,
          StepResult.ok, 50⟩)).failed = 0 :=
  ⟨by decide,
    (c10_negative_total_like_zero (-5) 1000 _ (by decide)).1,
    (c10_negative_total_like_zero (-5) 1000 _ (by decide)).2.1⟩

/-- C1: evaluation of testDatabase at the failing input.  One attempt
whose inner adapter call exceeds the deadline and later fails is
counted twice: once by the outer timeout handler (failed++, key
"Connection Timeout") and once more when the abandoned inner attempt
settles (failed++ with the adapter's key).  The summary ends with
successful + failed = 2 although only 1 attempt was launched, violating
successful + failed = totalAttempts. -/
theorem c1_testDatabase_double_counts_late_settler :
    (Harness.testDatabase
        [⟨false, true, StepResult.err ⟨none, "pool exhausted"⟩,
          StepResult.ok, StepResult.ok, 0⟩]).successful +
      (Harness.testDatabase
        [⟨false, true, StepResult.err ⟨none, "pool exhausted"⟩,
          StepResult.ok, StepResult.ok, 0⟩]).failed = 2 ∧
    (Harness.testDatabase
        [⟨false, true, StepResult.err ⟨none, "pool exhausted"⟩,
          StepResult.ok, StepResult.ok, 0⟩]).errors =
      ["Connection Timeout", "pool exhausted"] ∧
    ([⟨false, true, StepResult.err ⟨none, "pool exhausted"⟩,
        StepResult.ok, StepResult.ok, 0⟩] : List Harness.HBehavior).length = 1 := by
  exact ⟨by decide, by decide, by decide⟩

/-- C2 counterexample: in the run functions (postgress.js lines 36-49,
mongo.js lines 38-52) the promise-timeout rejection reaches the same
generic catch block as adapter errors, so a timed-out attempt records
the timeout exception's own message "Timeout", not the sentinel
"Connection Timeout" the claim requires. -/
theorem c2_run_timeout_key_not_sentinel :
    (LoadTest.run 1 5000
        (fun _ => ⟨true, StepResult.ok, StepResult.ok, StepResult.ok,
          StepResult.ok, 0⟩)).errors = ["Timeout"] ∧
    ("Timeout" : String) ≠ "Connection Timeout" := by
  exact ⟨by decide, by decide⟩

/-- C2 amended: the recorded key of a timed-out attempt depends on the
implementation.  testDatabase (part_000) records the fixed sentinel
"Connection Timeout"; the per-database run functions record the timeout
exception's own code-or-message, i.e. "Timeout". -/
theorem c2_amended_timeout_keys :
    (∀ b : LoadTest.AttemptBehavior, b.connectTimesOut = true →
      LoadTest.runAttempt b = Outcome.failure "Timeout") ∧
    (∀ hb : Harness.HBehavior, hb.beatsDeadline = false →
      Outcome.failure "Connection Timeout" ∈ Harness.contributions hb) := by
  constructor
  · intro b h
    simp [LoadTest.runAttempt, h, errKeyOf, timeoutError]
  · intro hb h
    simp [Harness.contributions, h]

/-- Witness for C2 amended at concrete timed-out behaviours. -/
theorem c2_amended_timeout_keys_witness :
    LoadTest.runAttempt
        ⟨true, StepResult.ok, StepResult.ok, StepResult.ok, StepResult.ok, 0⟩ =
      Outcome.failure "Timeout" ∧
    Outcome.failure "Connection Timeout" ∈
      Harness.contributions
        ⟨false, true, StepResult.ok, StepResult.ok, StepResult.ok, 0⟩ :=
  ⟨c2_amended_timeout_keys.1 _ rfl, c2_amended_timeout_keys.2 _ rfl⟩

/-- C3 counterexample: with perAttemptTimeout = 0 the run function does
not reject anything — it returns an ordinary summary in which the one
attempt was launched (the adapter connect call appears among the
performed operations) and produced a counted outcome.  No ConfigError
exists anywhere in the code: run is a total function into RunSummary. -/
theorem c3_nonpositive_timeout_not_rejected :
    (LoadTest.run 1 0
        (fun _ => ⟨true, StepResult.ok, StepResult.ok, StepResult.ok,
          StepResult.ok, 0⟩)).successful +
      (LoadTest.run 1 0
        (fun _ => ⟨true, StepResult.ok, StepResult.ok, StepResult.ok,
          StepResult.ok, 0⟩)).failed = 1 ∧
    (LoadTest.run 1 0
        (fun _ => ⟨true, StepResult.ok, StepResult.ok, StepResult.ok,
          StepResult.ok, 0⟩)).errors = ["Timeout"] ∧
    Effect.connect ∈
      LoadTest.runEffects 1
        (fun _ => ⟨true, StepResult.ok, StepResult.ok, StepResult.ok,
          StepResult.ok, 0⟩) := by
  exact ⟨by decide, by decide, by decide⟩

/-- C3 amended: a non-positive perAttemptTimeout is not validated and
raises no ConfigError; every attempt is still launched, the adapter
connect call is performed in each, and each attempt contributes exactly
one counted outcome (the non-positive delay merely makes the race timer
fire immediately). -/
theorem c3_amended_nonpositive_timeout_runs (t : ℤ) (ht : t ≤ 0) (n : ℤ)
    (beh : ℕ → LoadTest.AttemptBehavior) :
    (LoadTest.run n t beh).successful + (LoadTest.run n t beh).failed = n.toNat ∧
    (∀ b : LoadTest.AttemptBehavior,
      Effect.connect ∈ LoadTest.attemptEffects b) := by
  refine ⟨LoadTest.run_counts n t beh, fun b => ?_⟩
  simp [LoadTest.attemptEffects]

/-- Witness for C3 amended at timeout 0 with two timed-out attempts. -/
theorem c3_amended_nonpositive_timeout_runs_witness :
    ((0 : ℤ) ≤ 0) ∧
    (LoadTest.run 2 0
        (fun _ => ⟨true, StepResult.ok, StepResult.ok, StepResult.ok,
          StepResult.ok, 0⟩)).successful +
      (LoadTest.run 2 0
        (fun _ => ⟨true, StepResult.ok, StepResult.ok, StepResult.ok,
          StepResult.ok, 0⟩)).failed = (2 : ℤ).toNat ∧
    Effect.connect ∈
      LoadTest.attemptEffects
        ⟨true, StepResult.ok, StepResult.ok, StepResult.ok, StepResult.ok, 0⟩ :=
  ⟨by decide,
    (c3_amended_nonpositive_timeout_runs 0 (by decide) 2 _).1,
    (c3_amended_nonpositive_timeout_runs 0 (by decide) 2
      (fun _ => ⟨true, StepResult.ok, StepResult.ok, StepResult.ok,
        StepResult.ok, 0⟩)).2 _⟩

/-- C5: the distinct-error list never contains duplicates and keeps
first-seen order — appending an already-present key leaves the list
unchanged, a new key goes to the end, the list is duplicate-free after
folding any outcome sequence onto any duplicate-free accumulator (hence
at every point during a run), and the final errors list of every run is
duplicate-free. -/
theorem c5_distinct_errors_nodup_first_seen :
    (∀ (l : List String) (k : String), k ∈ l → addError l k = l) ∧
    (∀ (l : List String) (k : String), k ∉ l → addError l k = l ++ [k]) ∧
    (∀ (outs : List Outcome) (acc : LoadTest.RunSummary), acc.errors.Nodup →
      ((outs.foldl LoadTest.applyOutcome acc).errors).Nodup) ∧
    (∀ (n t : ℤ) (beh : ℕ → LoadTest.AttemptBehavior),
      ((LoadTest.run n t beh).errors).Nodup) := by
  refine ⟨fun l k h => ?_, fun l k h => ?_, LoadTest.foldl_errors_nodup,
    fun n t beh => ?_⟩
  · simp [addError, h]
  · simp [addError, h]
  · rw [LoadTest.run_errors]
    exact LoadTest.foldl_errors_nodup _ _ (by simp [LoadTest.initSummary])

/-- Witness for C5 at concrete lists, an outcome fold and a run. -/
theorem c5_distinct_errors_nodup_first_seen_witness :
    addError ["a"] "a" = ["a"] ∧
    addError ["a"] "b" = ["a", "b"] ∧
    (([Outcome.failure "x", Outcome.failure "x"].foldl LoadTest.applyOutcome
        (LoadTest.initSummary 2)).errors).Nodup ∧
    ((LoadTest.run 1 100
        (fun _ => ⟨false, StepResult.err ⟨some "XX000", "boom"⟩, StepResult.ok,
          StepResult.ok, StepResult.ok, 0⟩)).errors).Nodup :=
  ⟨c5_distinct_errors_nodup_first_seen.1 _ _ (by decide),
    c5_distinct_errors_nodup_first_seen.2.1 _ _ (by decide),
    c5_distinct_errors_nodup_first_seen.2.2.1 _ _ (by decide),
    c5_distinct_errors_nodup_first_seen.2.2.2 1 100 _⟩

/-- C6: responseTimes is exactly the latencies of the Success outcomes
in completion order, the successful counter equals its length, the
reported average is computed from it, and with zero successes the
average is the literal 0 (the length-guarded branch), not an undefined
value. -/
theorem c6_avg_over_successes_zero_when_none (n t : ℤ)
    (beh : ℕ → LoadTest.AttemptBehavior) :
    (LoadTest.run n t beh).responseTimes =
      LoadTest.successLatencies (LoadTest.outcomes n beh) ∧
    (LoadTest.run n t beh).successful =
      (LoadTest.run n t beh).responseTimes.length ∧
    (LoadTest.run n t beh).avgResponseTime =
      LoadTest.avgOf ((LoadTest.run n t beh).responseTimes) ∧
    ((LoadTest.run n t beh).successful = 0 →
      (LoadTest.run n t beh).avgResponseTime = 0) := by
  have hrt : (LoadTest.run n t beh).responseTimes =
      LoadTest.successLatencies (LoadTest.outcomes n beh) := by
    rw [LoadTest.run_responseTimes, LoadTest.foldl_responseTimes]
    simp [LoadTest.initSummary]
  have hs : (LoadTest.run n t beh).successful =
      (LoadTest.run n t beh).responseTimes.length := by
    rw [LoadTest.run_successful, LoadTest.foldl_successful, hrt]
    simp [LoadTest.initSummary]
  refine ⟨hrt, hs, LoadTest.run_avg n t beh, fun h0 => ?_⟩
  have hempty : (LoadTest.run n t beh).responseTimes = [] := by
    have := hs
    rw [h0] at this
    exact (List.length_eq_zero.mp this.symm)
  rw [LoadTest.run_avg, hempty]
  simp [LoadTest.avgOf]

/-- Witness for C6 on a run whose single attempt fails. -/
theorem c6_avg_over_successes_zero_when_none_witness :
    (LoadTest.run 1 100
        (fun _ => ⟨false, StepResult.err ⟨none, "down"⟩, StepResult.ok,
          StepResult.ok, StepResult.ok, 0⟩)).successful = 0 ∧
    (LoadTest.run 1 100
        (fun _ => ⟨false, StepResult.err ⟨none, "down"⟩, StepResult.ok,
          StepResult.ok, StepResult.ok, 0⟩)).avgResponseTime = 0 :=
  ⟨by decide,
    (c6_avg_over_successes_zero_when_none 1 100 _).2.2.2 (by decide)⟩

/-- C7: an adapter rejection at connect, at the round-trip query, or at
the in-try close reaches the attempt's catch block and is recorded as a
failure outcome with the error's code-or-message key; run itself has no
throw path — it is total, and every attempt is accounted into the
summary it returns (successful + failed = totalAttempts). -/
theorem c7_adapter_errors_caught_as_failures :
    (∀ (b : LoadTest.AttemptBehavior) (e : JsError), b.connectTimesOut = false →
      b.connect = StepResult.err e →
      LoadTest.runAttempt b = Outcome.failure (errKeyOf e)) ∧
    (∀ (b : LoadTest.AttemptBehavior) (e : JsError), b.connectTimesOut = false →
      b.connect = StepResult.ok → b.query = StepResult.err e →
      LoadTest.runAttempt b = Outcome.failure (errKeyOf e)) ∧
    (∀ (b : LoadTest.AttemptBehavior) (e : JsError), b.connectTimesOut = false →
      b.connect = StepResult.ok → b.query = StepResult.ok →
      b.close = StepResult.err e →
      LoadTest.runAttempt b = Outcome.failure (errKeyOf e)) ∧
    (∀ (n t : ℤ) (beh : ℕ → LoadTest.AttemptBehavior),
      (LoadTest.run n t beh).successful + (LoadTest.run n t beh).failed =
        n.toNat) := by
  refine ⟨fun b e h1 h2 => ?_, fun b e h1 h2 h3 => ?_,
    fun b e h1 h2 h3 h4 => ?_, LoadTest.run_counts⟩
  · simp [LoadTest.runAttempt, h1, h2]
  · simp [LoadTest.runAttempt, h1, h2, h3]
  · simp [LoadTest.runAttempt, h1, h2, h3, h4]

/-- Witness for C7 at concrete failing behaviours. -/
theorem c7_adapter_errors_caught_as_failures_witness :
    LoadTest.runAttempt
        ⟨false, StepResult.err ⟨some "ECONNREFUSED", "refused"⟩, StepResult.ok,
          StepResult.ok, StepResult.ok, 0⟩ =
      Outcome.failure (errKeyOf ⟨some "ECONNREFUSED", "refused"⟩) ∧
    LoadTest.runAttempt
        ⟨false, StepResult.ok, StepResult.err ⟨none, "query died"⟩,
          StepResult.ok, StepResult.ok, 0⟩ =
      Outcome.failure (errKeyOf ⟨none, "query died"⟩) ∧
    LoadTest.runAttempt
        ⟨false, StepResult.ok, StepResult.ok,
          StepResult.err ⟨none, "close died"⟩, StepResult.ok, 0⟩ =
      Outcome.failure (errKeyOf ⟨none, "close died"⟩) ∧
    (LoadTest.run 2 100
        (fun _ => ⟨false, StepResult.ok, StepResult.ok, StepResult.ok,
          StepResult.ok, 7⟩)).successful +
      (LoadTest.run 2 100
        (fun _ => ⟨false, StepResult.ok, StepResult.ok, StepResult.ok,
          StepResult.ok, 7⟩)).failed = (2 : ℤ).toNat :=
  ⟨c7_adapter_errors_caught_as_failures.1 _ _ rfl rfl,
    c7_adapter_errors_caught_as_failures.2.1 _ _ rfl rfl rfl,
    c7_adapter_errors_caught_as_failures.2.2.1 _ _ rfl rfl rfl rfl,
    c7_adapter_errors_caught_as_failures.2.2.2 2 100 _⟩

/-- C8 counterexample: in the run functions the first close/end is
awaited inside the try block, before successful++ — so when connect and
the round-trip succeed but that close rejects, the catch block counts
the attempt as a failure (with the close error's key), not as the
success the claim requires. -/
theorem c8_close_error_counted_as_failure :
    (LoadTest.run 1 1000
        (fun _ => ⟨false, StepResult.ok, StepResult.ok,
          StepResult.err ⟨none, "close failed"⟩, StepResult.ok, 3⟩)).successful = 0 ∧
    (LoadTest.run 1 1000
        (fun _ => ⟨false, StepResult.ok, StepResult.ok,
          StepResult.err ⟨none, "close failed"⟩, StepResult.ok, 3⟩)).failed = 1 ∧
    (LoadTest.run 1 1000
        (fun _ => ⟨false, StepResult.ok, StepResult.ok,
          StepResult.err ⟨none, "close failed"⟩, StepResult.ok, 3⟩)).errors =
      ["close failed"] := by
  exact ⟨by decide, by decide, by decide⟩

/-- C8 amended: in the run functions the finally-block cleanup close is
attempted on every attempt that created a connection handle, regardless
of whether the attempt succeeded, failed or timed out — in mongo.js and
postgress.js the client is constructed before connect, so that is every
attempt; in the mysql variant the handle exists only once the
timeout-wrapped createConnection has resolved, so no cleanup close
occurs after a connect failure or timeout.  A cleanup-close result
never influences the attempt's outcome or error keys; but an error from
the in-try close after successful connect and round-trip is recorded as
a Failure with that error's key, not as a Success.  (The combined
harness testDatabase attempts no close at all outside its success
path.) -/
theorem c8_amended_cleanup_close :
    (∀ b : LoadTest.AttemptBehavior,
      Effect.cleanupCloseCall ∈ LoadTest.attemptEffects b) ∧
    (∀ b : LoadTest.AttemptBehavior, LoadTest.mysqlHandleCreated b = true →
      Effect.cleanupCloseCall ∈ LoadTest.attemptEffectsMysql b) ∧
    (∀ b : LoadTest.AttemptBehavior, LoadTest.mysqlHandleCreated b = false →
      Effect.cleanupCloseCall ∉ LoadTest.attemptEffectsMysql b) ∧
    (∀ (b : LoadTest.AttemptBehavior) (r r' : StepResult),
      LoadTest.runAttempt { b with cleanupClose := r } =
        LoadTest.runAttempt { b with cleanupClose := r' }) ∧
    (∀ (b : LoadTest.AttemptBehavior) (e : JsError), b.connectTimesOut = false →
      b.connect = StepResult.ok → b.query = StepResult.ok →
      b.close = StepResult.err e →
      LoadTest.runAttempt b = Outcome.failure (errKeyOf e)) := by
  refine ⟨fun b => ?_, fun b h => ?_, fun b h => ?_, fun b r r' => rfl,
    fun b e h1 h2 h3 h4 => ?_⟩
  · simp [LoadTest.attemptEffects]
  · simp [LoadTest.attemptEffectsMysql, h]
  · by_cases hct : b.connectTimesOut
    · simp [LoadTest.attemptEffectsMysql, hct, h]
    · cases hc : b.connect with
      | err e =>
        simp [LoadTest.attemptEffectsMysql, hct, hc, h]
      | ok =>
        exfalso
        simp [LoadTest.mysqlHandleCreated, hct, hc] at h
  · simp [LoadTest.runAttempt, h1, h2, h3, h4]

/-- Witness for C8 amended at concrete behaviours of each variant. -/
theorem c8_amended_cleanup_close_witness :
    Effect.cleanupCloseCall ∈
      LoadTest.attemptEffects
        ⟨true, StepResult.ok, StepResult.ok, StepResult.ok, StepResult.ok, 0⟩ ∧
    Effect.cleanupCloseCall ∈
      LoadTest.attemptEffectsMysql
        ⟨false, StepResult.ok, StepResult.err ⟨none, "query died"⟩,
          StepResult.ok, StepResult.ok, 0⟩ ∧
    Effect.cleanupCloseCall ∉
      LoadTest.attemptEffectsMysql
        ⟨true, StepResult.ok, StepResult.ok, StepResult.ok, StepResult.ok, 0⟩ ∧
    LoadTest.runAttempt
        ⟨false, StepResult.ok, StepResult.ok, StepResult.ok,
          StepResult.err ⟨none, "cleanup died"⟩, 4⟩ =
      LoadTest.runAttempt
        ⟨false, StepResult.ok, StepResult.ok, StepResult.ok, StepResult.ok, 4⟩ ∧
    LoadTest.runAttempt
        ⟨false, StepResult.ok, StepResult.ok,
          StepResult.err ⟨none, "close died"⟩, StepResult.ok, 4⟩ =
      Outcome.failure (errKeyOf ⟨none, "close died"⟩) :=
  ⟨c8_amended_cleanup_close.1 _,
    c8_amended_cleanup_close.2.1 _ rfl,
    c8_amended_cleanup_close.2.2.1 _ rfl,
    c8_amended_cleanup_close.2.2.2.1
      ⟨false, StepResult.ok, StepResult.ok, StepResult.ok, StepResult.ok, 4⟩
      (StepResult.err ⟨none, "cleanup died"⟩) StepResult.ok,
    c8_amended_cleanup_close.2.2.2.2 _ _ rfl rfl rfl rfl⟩

/-- C9 counterexample: the recorded key is error.code || error.message,
and the || operator tests truthiness, not presence — an error whose
code property is present but is the empty string records the message,
although the claim requires the code to be used whenever present. -/
theorem c9_empty_code_falls_back_to_message :
    errKeyOf ⟨some "", "msg only"⟩ = "msg only" ∧
    ("msg only" : String) ≠ "" ∧
    (LoadTest.run 1 1000
        (fun _ => ⟨false, StepResult.err ⟨some "", "msg only"⟩, StepResult.ok,
          StepResult.ok, StepResult.ok, 0⟩)).errors = ["msg only"] := by
  exact ⟨by decide, by decide, by decide⟩

/-- C9 amended: for a non-timeout failed attempt the recorded errorKey
is the adapter error's native code when it is present and non-empty
(truthy); when the code is absent or the empty string, the error's
message text is recorded instead. -/
theorem c9_amended_error_key :
    (∀ (c m : String), c ≠ "" → errKeyOf ⟨some c, m⟩ = c) ∧
    (∀ m : String, errKeyOf ⟨none, m⟩ = m) ∧
    (∀ m : String, errKeyOf ⟨some "", m⟩ = m) ∧
    (∀ (b : LoadTest.AttemptBehavior) (e : JsError), b.connectTimesOut = false →
      b.connect = StepResult.err e →
      LoadTest.runAttempt b = Outcome.failure (errKeyOf e)) := by
  refine ⟨fun c m h => ?_, fun m => rfl, fun m => rfl, fun b e h1 h2 => ?_⟩
  · simp [errKeyOf, h]
  · simp [LoadTest.runAttempt, h1, h2]

/-- Witness for C9 amended at concrete errors. -/
theorem c9_amended_error_key_witness :
    errKeyOf ⟨some "28P01", "auth failed"⟩ = "28P01" ∧
    errKeyOf ⟨none, "socket hang up"⟩ = "socket hang up" ∧
    errKeyOf ⟨some "", "bare message"⟩ = "bare message" ∧
    LoadTest.runAttempt
        ⟨false, StepResult.err ⟨some "28P01", "auth failed"⟩, StepResult.ok,
          StepResult.ok, StepResult.ok, 0⟩ =
      Outcome.failure (errKeyOf ⟨some "28P01", "auth failed"⟩) :=
  ⟨c9_amended_error_key.1 _ _ (by decide),
    c9_amended_error_key.2.1 _,
    c9_amended_error_key.2.2.1 _,
    c9_amended_error_key.2.2.2 _ _ rfl rfl⟩

end DBStress
